import Mathlib

/-!
Shallow embedding of the browser client in static/js/app.js of the Care-Gpt
repository, together with theorems settling the frozen claims about it.

Modelling conventions: JavaScript strings are Lean strings (sequences of
characters), finite JavaScript numbers are exact rationals (plain integers
where the source only ever carries integral values), and an absent, null or
undefined JSON field is Option.none.  DOM elements that may or may not be on
the page are Option-valued slots holding their rendered content.
-/

/-- JavaScript `x || d` on a possibly absent string: null, undefined and the
empty string are falsy. -/
def jsOrStr (o : Option String) (d : String) : String :=
  match o with
  | some s => if s = "" then d else s
  | none => d

/-- JavaScript `x || d` on a possibly absent number: null, undefined and zero
are falsy. -/
def jsOrInt (o : Option Int) (d : Int) : Int :=
  match o with
  | some n => if n = 0 then d else n
  | none => d

/-- JavaScript truthiness of a possibly absent string, as in `if (p.gender)`. -/
def jsTruthyStr (o : Option String) : Bool :=
  match o with
  | some s => s != ""
  | none => false

/-- JavaScript string concatenation of a possibly undefined value: undefined
prints as the text `undefined`. -/
def jsUndefStr (o : Option String) : String :=
  match o with
  | some s => s
  | none => "undefined"

/-- JavaScript `Math.round` on an exact rational: round half toward positive
infinity, that is the floor of q + 1/2 (stated as jsRound_eq_floor below). -/
def jsRound (q : ℚ) : Int := (q + 1 / 2).floor

/-- JavaScript `s.trim()`: strip leading and trailing whitespace, realized
directly on the character list. -/
def jsTrim (s : String) : String :=
  String.mk (((s.data.dropWhile Char.isWhitespace).reverse.dropWhile Char.isWhitespace).reverse)

/-- Value of a maximal leading run of decimal digits; none when there is no
leading digit. -/
def parseNatDigits (cs : List Char) : Option Nat :=
  let ds := cs.takeWhile (fun c => c.isDigit)
  if ds.length = 0 then none
  else some (ds.foldl (fun a c => a * 10 + (c.toNat - 48)) 0)

/-- JavaScript `parseInt(s, 10)`: skip surrounding whitespace, take an
optional sign and the longest run of decimal digits; none models NaN. -/
def jsParseInt (s : String) : Option Int :=
  match (jsTrim s).data with
  | '-' :: rest => (parseNatDigits rest).map (fun n => -(n : Int))
  | '+' :: rest => (parseNatDigits rest).map (fun n => (n : Int))
  | cs => (parseNatDigits cs).map (fun n => (n : Int))

/-- Numeric value of a list of decimal digits. -/
def natOfDigits (ds : List Char) : Nat :=
  ds.foldl (fun a c => a * 10 + (c.toNat - 48)) 0

/-- Optional exponent suffix of a JavaScript number literal: a sign followed
by digits; none when the digits are missing. -/
def parseSignedNat (cs : List Char) : Option Int :=
  match cs with
  | '-' :: rest => (parseNatDigits rest).map (fun n => -(n : Int))
  | '+' :: rest => (parseNatDigits rest).map (fun n => (n : Int))
  | _ => (parseNatDigits cs).map (fun n => (n : Int))

/-- JavaScript `parseFloat(s)` on the longest valid literal prefix, with the
value taken exactly: sign, integer digits, optional fraction, optional
exponent; none models NaN. -/
def jsParseFloat (s : String) : Option ℚ :=
  let cs0 := (jsTrim s).data
  let sign : ℚ := match cs0 with
    | '-' :: _ => -1
    | _ => 1
  let cs := match cs0 with
    | '-' :: r => r
    | '+' :: r => r
    | r => r
  let intPart := cs.takeWhile (fun c => c.isDigit)
  let rest := cs.drop intPart.length
  let fracPart := match rest with
    | '.' :: r => r.takeWhile (fun c => c.isDigit)
    | _ => []
  let rest2 := match rest with
    | '.' :: r => r.drop fracPart.length
    | _ => rest
  if intPart.length = 0 ∧ fracPart.length = 0 then none
  else
    let mant : ℚ :=
      (natOfDigits intPart : ℚ) + (natOfDigits fracPart : ℚ) / (10 : ℚ) ^ fracPart.length
    let expo : Int := match rest2 with
      | 'e' :: r => (parseSignedNat r).getD 0
      | 'E' :: r => (parseSignedNat r).getD 0
      | _ => 0
    some (sign * mant * (10 : ℚ) ^ expo)

/-- Character-level HTML escaping as performed by the browser when app.js
assigns `textContent` and reads back `innerHTML` (escapeHtml, app.js lines
100-105): exactly the characters &, < and > become entities. -/
def escCharL (c : Char) : List Char :=
  if c = '&' then ['&', 'a', 'm', 'p', ';']
  else if c = '<' then ['&', 'l', 't', ';']
  else if c = '>' then ['&', 'g', 't', ';']
  else [c]

/-- Escaping lifted to character lists. -/
def escL (cs : List Char) : List Char :=
  cs.foldr (fun c acc => escCharL c ++ acc) []

/-- Escaping on strings. -/
def escStr (s : String) : String := String.mk (escL s.data)

/-- escapeHtml from app.js: null and undefined render as the empty string,
any other value is serialized with &, < and > escaped. -/
def escapeHtml (o : Option String) : String :=
  match o with
  | some s => escStr s
  | none => ""

/-- Entity decoding, inverse to escL on its range: used to state that every
ampersand in escaped output is the start of an entity marker. -/
def unescL : List Char → List Char
  | '&' :: 'a' :: 'm' :: 'p' :: ';' :: r => '&' :: unescL r
  | '&' :: 'l' :: 't' :: ';' :: r => '<' :: unescL r
  | '&' :: 'g' :: 't' :: ';' :: r => '>' :: unescL r
  | c :: rest => c :: unescL rest
  | [] => []

/-! ## Data model: view models received from the remote services -/

/-- One contributing factor of the explainability payload. -/
structure ExplainFactor where
  factor : Option String := none
  impact : Option String := none
  description : Option String := none
deriving DecidableEq

/-- Response body of the triage endpoint. -/
structure TriageData where
  risk_level : Option String := none
  confidence_score : Option ℚ := none
  recommended_department : Option String := none
  alternative_departments : Option (List String) := none
  summary : Option String := none
  contributing_factors : Option (List ExplainFactor) := none
deriving DecidableEq

/-- The by_risk_level mapping of the dashboard summary; only the three keys
the client reads are modelled, an absent key is none. -/
structure ByRiskLevel where
  Low : Option Int := none
  Medium : Option Int := none
  High : Option Int := none
deriving DecidableEq

/-- patient_input of a recent-feed entry; only symptoms is read. -/
structure RecentPatientInput where
  symptoms : Option String := none
deriving DecidableEq

/-- One entry of the dashboard recent feed. -/
structure RecentEntry where
  risk_level : Option String := none
  recommended_department : Option String := none
  confidence_score : Option ℚ := none
  patient_input : Option RecentPatientInput := none
deriving DecidableEq

/-- Dashboard summary payload.  by_department keeps the iteration order of
Object.keys as an association list. -/
structure DashboardSummary where
  by_risk_level : Option ByRiskLevel := none
  by_department : Option (List (String × Int)) := none
  total_triages : Option Int := none
  recent : Option (List RecentEntry) := none
deriving DecidableEq

/-- Partial patient object returned by the upload and image endpoints.
Numeric fields are carried as integers; JavaScript stringification of an
integral number agrees with Int.toString. -/
structure Patient where
  age : Option Int := none
  gender : Option String := none
  symptoms : Option String := none
  blood_pressure_systolic : Option Int := none
  blood_pressure_diastolic : Option Int := none
  heart_rate : Option Int := none
  temperature : Option Int := none
  pre_existing_conditions : Option (List String) := none
deriving DecidableEq

/-! ## Formatter: pure classifiers (app.js lines 44-60) -/

/-- riskBadgeClass from app.js. -/
def riskBadgeClass (level : Option String) : String :=
  if level = some "High" then "badge-high"
  else if level = some "Medium" then "badge-medium"
  else "badge-low"

/-- riskValueClass from app.js. -/
def riskValueClass (level : Option String) : String :=
  if level = some "High" then "risk-high"
  else if level = some "Medium" then "risk-medium"
  else "risk-low"

/-- impactClass from app.js. -/
def impactClass (impact : Option String) : String :=
  if impact = some "high" then "high"
  else if impact = some "medium" then "medium"
  else "low"

/-! ## Result renderer (app.js lines 107-135) -/

/-- Confidence shown in the result panel:
`data.confidence_score != null ? Math.round(data.confidence_score * 100) : 0`. -/
def resultConf (cs : Option ℚ) : Int :=
  match cs with
  | some c => jsRound (c * 100)
  | none => 0

/-- renderTriageResult from app.js. -/
def renderTriageResult (data : TriageData) : String :=
  let risk := jsOrStr data.risk_level "Low"
  let conf := resultConf data.confidence_score
  let dept := jsOrStr data.recommended_department "General Medicine"
  let alt := data.alternative_departments.getD []
  let summary := jsOrStr data.summary ""
  let riskValClass := riskValueClass (some risk)
  "<div class=\"result-row\"><span class=\"result-label\">Risk level</span><span class=\"result-value " ++ riskValClass ++ "\">" ++ escStr risk ++ "</span></div>"
    ++ "<div class=\"result-row\"><span class=\"result-label\">Confidence</span><span class=\"result-value\">" ++ toString conf ++ "%</span></div>"
    ++ "<div class=\"result-row\"><span class=\"result-label\">Recommended department</span></div>"
    ++ "<p class=\"result-dept\" style=\"margin:0 0 0.75rem 0\">" ++ escStr dept ++ "</p>"
    ++ (if alt.length ≠ 0 then "<p style=\"font-size:0.8125rem;color:var(--color-text-muted);margin:0 0 0.75rem 0\">Alternatives: " ++ String.intercalate ", " (alt.map escStr) ++ "</p>" else "")
    ++ (if summary ≠ "" then "<p class=\"result-summary\">" ++ escStr summary ++ "</p>" else "")

/-- Fixed markup shown when no contributing factors are available. -/
def noFactorsHtml : String :=
  "<p style=\"font-size:0.875rem;color:var(--color-text-muted)\">No factors returned.</p>"

/-- One list item of the explainability panel (body of the forEach in
renderExplainability, app.js line 131).  The factor and description flow
through escapeHtml; the impact value is concatenated raw, both as a class
token and as the visible label. -/
def explainItemHtml (f : ExplainFactor) : String :=
  "<li class=\"explain-item\"><span class=\"explain-factor\">" ++ escapeHtml f.factor
    ++ "</span><span class=\"explain-impact " ++ impactClass f.impact ++ "\">("
    ++ jsUndefStr f.impact ++ ")</span><p class=\"explain-desc\">"
    ++ escapeHtml f.description ++ "</p></li>"

/-- renderExplainability from app.js. -/
def renderExplainability (factors : Option (List ExplainFactor)) : String :=
  match factors with
  | none => noFactorsHtml
  | some fs =>
    if fs.length = 0 then noFactorsHtml
    else "<ul class=\"explain-list\">" ++ String.join (fs.map explainItemHtml) ++ "</ul>"

/-! ## Dashboard renderer (window.loadDashboardSummary, app.js lines 62-98) -/

/-- Symptom excerpt of a recent-feed entry (app.js line 90):
`(r.patient_input && r.patient_input.symptoms) ? r.patient_input.symptoms.substring(0, 60) + (r.patient_input.symptoms.length > 60 ? ellipsis : empty) : emdash`. -/
def symExcerpt (r : RecentEntry) : String :=
  match r.patient_input with
  | some pi =>
    match pi.symptoms with
    | some s => if s ≠ "" then s.take 60 ++ (if s.length > 60 then "…" else "") else "—"
    | none => "—"
  | none => "—"

/-- Confidence text of a recent-feed entry (app.js line 91):
`r.confidence_score ? Math.round(r.confidence_score * 100) + percent : empty`;
a present score of 0 is falsy and renders as the empty string. -/
def recentConfText (cs : Option ℚ) : String :=
  match cs with
  | some c => if c ≠ 0 then toString (jsRound (c * 100)) ++ "%" else ""
  | none => ""

/-- One entry of the recent-activity feed (body of the map in app.js
lines 87-92). -/
def recentItemHtml (r : RecentEntry) : String :=
  let badgeClass := riskBadgeClass r.risk_level
  let riskBadge := "<span class=\"badge " ++ badgeClass ++ "\">" ++ escapeHtml r.risk_level ++ "</span>"
  let sym := symExcerpt r
  "<div class=\"recent-item\"><div><p class=\"recent-item-dept\">" ++ escapeHtml r.recommended_department
    ++ "</p><p class=\"recent-item-symptoms\">" ++ escStr sym
    ++ "</p></div><div class=\"recent-item-meta\">" ++ riskBadge
    ++ "<span style=\"font-size:0.75rem;color:var(--color-text-muted)\">" ++ recentConfText r.confidence_score
    ++ "</span></div></div>"

/-- One entry of the department bar list (body of the map in app.js
lines 77-81), with the percentage already computed. -/
def deptItemHtml (dept : String) (count : Int) (pct : Int) : String :=
  "<div class=\"dept-item\"><div class=\"dept-item-name\">" ++ escStr dept
    ++ "</div><div class=\"dept-item-bar\"><div class=\"dept-item-fill\" style=\"width:" ++ toString pct
    ++ "%\"></div></div><div class=\"dept-item-count\">" ++ toString count ++ "</div></div>"

/-- Placeholder markup for an empty department list (app.js line 82). -/
def noDataYetHtml : String :=
  "<p class=\"empty-state\" style=\"margin:0;\">No data yet.</p>"

/-- Percentage of one department as the source computes it, folded over the
surrounding lines: `var total = data.total_triages || 1` and
`var pct = total ? Math.round((count / total) * 100) : 0`. -/
def deptPct (count : Int) (total_triages : Option Int) : Int :=
  let total := jsOrInt total_triages 1
  if total ≠ 0 then jsRound (((count : ℚ) / (total : ℚ)) * 100) else 0

/-- Markup assigned to the dept-bars container on a successful summary fetch
(app.js lines 74-82). -/
def deptBarsHtml (data : DashboardSummary) : String :=
  let byDept := data.by_department.getD []
  if byDept.length ≠ 0 then
    String.join (byDept.map (fun dc => deptItemHtml dc.1 dc.2 (deptPct dc.2 data.total_triages)))
  else noDataYetHtml

/-- Fixed markup shown in the recent feed when the summary fetch fails
(app.js line 96). -/
def couldNotLoadHtml : String :=
  "<p class=\"empty-state text-slate-500\">Could not load summary.</p>"

/-- Dashboard region of the page: each slot is the rendered content of the
corresponding element, none when the element is absent from the page. -/
structure Dom where
  statLow : Option String := none
  statMedium : Option String := none
  statHigh : Option String := none
  deptBars : Option String := none
  recentList : Option String := none
deriving DecidableEq

/-- Settlement of a promise: fulfilled with a parsed value or rejected with
an error message. -/
inductive Settled (α : Type) where
  | fulfilled (val : α)
  | rejected (msg : String)
deriving DecidableEq

/-- window.loadDashboardSummary from app.js, as a function of the settlement
of the summary fetch: the then-branch renders the three stat counters, the
department bars and (when present and non-empty) the recent feed; the
catch-branch replaces only the recent feed with a fixed message. -/
def loadDashboardSummary (res : Settled DashboardSummary) (dom : Dom) : Dom :=
  match res with
  | .rejected _ =>
    { dom with recentList := dom.recentList.map (fun _ => couldNotLoadHtml) }
  | .fulfilled data =>
    let byRisk := data.by_risk_level.getD {}
    let dom := { dom with
      statLow := dom.statLow.map (fun _ => toString (jsOrInt byRisk.Low 0)),
      statMedium := dom.statMedium.map (fun _ => toString (jsOrInt byRisk.Medium 0)),
      statHigh := dom.statHigh.map (fun _ => toString (jsOrInt byRisk.High 0)) }
    let dom := { dom with deptBars := dom.deptBars.map (fun _ => deptBarsHtml data) }
    match data.recent with
    | some rs =>
      if rs.length ≠ 0 then
        { dom with recentList := dom.recentList.map (fun _ => String.join (rs.map recentItemHtml)) }
      else dom
    | none => dom

/-! ## Transport client (the API object, app.js lines 2-42) -/

/-- Parsed response body as far as the client inspects it on the error path:
the optional human-readable error field.  Domain payloads are modelled
separately at the renderer boundary. -/
structure RespBody where
  error : Option String := none
deriving DecidableEq

/-- A settled fetch: the transport-level ok flag and the outcome of r.json(),
where Except.error is a rejected body parse carrying its own message. -/
structure FetchResp where
  ok : Bool
  json : Except String RespBody

/-- Common shape of the three POST operations (app.js lines 10, 21, 32):
`if (!r.ok) return r.json().then(function (j) { ... throw j.error || generic ... }); return r.json();`
A rejection of r.json() on the error path has no handler and propagates. -/
def apiPostResult (generic : String) (r : FetchResp) : Except String RespBody :=
  if r.ok then r.json
  else
    match r.json with
    | .ok j => .error (jsOrStr j.error generic)
    | .error m => .error m

/-- API.triage settlement behavior. -/
def API.triage (r : FetchResp) : Except String RespBody :=
  apiPostResult "Triage failed" r

/-- API.uploadDocument settlement behavior. -/
def API.uploadDocument (r : FetchResp) : Except String RespBody :=
  apiPostResult "Upload failed" r

/-- API.analyzeDocumentImage settlement behavior. -/
def API.analyzeDocumentImage (r : FetchResp) : Except String RespBody :=
  apiPostResult "Analysis failed" r

/-- API.dashboardSummary (app.js lines 36-38): the response status is never
inspected, the parsed body is passed through. -/
def API.dashboardSummary (r : FetchResp) : Except String RespBody := r.json

/-- API.dashboardHistory (app.js lines 39-41): same pass-through shape. -/
def API.dashboardHistory (r : FetchResp) : Except String RespBody := r.json

/-! ## Form population from an extracted patient (fillFormFromPatient,
app.js lines 148-163) -/

/-- Current values of the triage form inputs, one string per field. -/
structure FormState where
  age : String := ""
  gender : String := ""
  symptoms : String := ""
  blood_pressure : String := ""
  heart_rate : String := ""
  temperature : String := ""
  pre_existing_conditions : String := ""
deriving DecidableEq

/-- `if (p.age != null) ageField.value = p.age` (null check: 0 overwrites). -/
def fillAge (p : Patient) (f : FormState) : FormState :=
  match p.age with
  | some a => { f with age := toString a }
  | none => f

/-- `if (p.gender) genderField.value = p.gender` (truthiness: the empty
string does not overwrite). -/
def fillGender (p : Patient) (f : FormState) : FormState :=
  match p.gender with
  | some g => if g ≠ "" then { f with gender := g } else f
  | none => f

/-- `if (p.symptoms) symptomsField.value = p.symptoms` (truthiness). -/
def fillSymptoms (p : Patient) (f : FormState) : FormState :=
  match p.symptoms with
  | some s => if s ≠ "" then { f with symptoms := s } else f
  | none => f

/-- The blood-pressure special case (app.js lines 153-157): both components
present joins them with a slash, systolic alone shows just that value,
anything else leaves the field untouched. -/
def fillBloodPressure (p : Patient) (f : FormState) : FormState :=
  match p.blood_pressure_systolic, p.blood_pressure_diastolic with
  | some s, some d => { f with blood_pressure := toString s ++ "/" ++ toString d }
  | some s, none => { f with blood_pressure := toString s }
  | none, _ => f

/-- `if (p.heart_rate != null) ...` (null check). -/
def fillHeartRate (p : Patient) (f : FormState) : FormState :=
  match p.heart_rate with
  | some h => { f with heart_rate := toString h }
  | none => f

/-- `if (p.temperature != null) ...` (null check). -/
def fillTemperature (p : Patient) (f : FormState) : FormState :=
  match p.temperature with
  | some t => { f with temperature := toString t }
  | none => f

/-- `if (p.pre_existing_conditions && p.pre_existing_conditions.length) ...`
(truthiness plus non-empty length; joined with a comma and space). -/
def fillConditions (p : Patient) (f : FormState) : FormState :=
  match p.pre_existing_conditions with
  | some l => if l.length ≠ 0 then { f with pre_existing_conditions := String.intercalate ", " l } else f
  | none => f

/-- fillFormFromPatient from app.js: `if (!p) return;` then the per-field
updates in source order. -/
def fillFormFromPatient (p : Option Patient) (f : FormState) : FormState :=
  match p with
  | none => f
  | some p =>
    fillConditions p (fillTemperature p (fillHeartRate p (fillBloodPressure p
      (fillSymptoms p (fillGender p (fillAge p f))))))

/-! ## Triage submission lane (the submit handler, app.js lines 212-252) -/

/-- Submit button: disabled flag and rendered content (textContent and
innerHTML both write this slot). -/
structure BtnState where
  disabled : Bool := false
  label : String := ""
deriving DecidableEq

/-- Modelled from the spec: the submit button markup of the page template,
which is not under src/.  Section 4.5 of the spec states that on settlement
the original label is restored; the source restores exactly the fixed markup
below (app.js line 249), so the template button must carry it initially. -/
def pageBtnLabel : String :=
  "<span class=\"material-symbols-outlined\" style=\"font-size:1.25rem\">medical_services</span> Run AI triage"

/-- Mutable page state touched by the triage submission lane. -/
structure PageState where
  btn : BtnState := {}
  resultContent : String := ""
  explainContent : String := ""
  resultHidden : Bool := true
  explainHidden : Bool := true
  alerts : List String := []
  dashboardRefreshes : Nat := 0
deriving DecidableEq

/-- Payload sent to POST /api/triage (app.js lines 231-238).  none models
both undefined and NaN; the temperature is the exact value of parseFloat. -/
structure TriagePayload where
  age : Option Int
  gender : String
  symptoms : String
  blood_pressure : Option String
  heart_rate : Option Int
  temperature : Option ℚ
  pre_existing_conditions : List String
deriving DecidableEq

/-- `conditions ? conditions.split(/[,;]/).map(trim).filter(Boolean) : []`
(app.js line 222). -/
def buildConditions (conditions : String) : List String :=
  if conditions ≠ "" then
    ((conditions.split (fun c => c = ',' ∨ c = ';')).map jsTrim).filter (fun s => s ≠ "")
  else []

/-- The payload built from the form values once validation has passed;
symptoms is the already-trimmed value. -/
def submitPayload (form : FormState) (symptoms : String) : TriagePayload :=
  { age := if form.age ≠ "" then jsParseInt form.age else some 35
    gender := if form.gender ≠ "" then form.gender else "Unknown"
    symptoms := symptoms
    blood_pressure := if jsTrim form.blood_pressure ≠ "" then some (jsTrim form.blood_pressure) else none
    heart_rate := if form.heart_rate ≠ "" then jsParseInt form.heart_rate else none
    temperature := if form.temperature ≠ "" then jsParseFloat form.temperature else none
    pre_existing_conditions := buildConditions form.pre_existing_conditions }

/-- The fixed validation notice (app.js line 225). -/
def enterSymptomsAlert : String := "Please enter symptoms."

/-- Synchronous part of the submit handler (app.js lines 213-238): validate,
then either alert and stop without any network call, or disable the button,
set the in-progress label and issue the triage call. -/
def submitStart (form : FormState) (st : PageState) : PageState × Option TriagePayload :=
  let symptoms := jsTrim form.symptoms
  if symptoms = "" then
    ({ st with alerts := st.alerts ++ [enterSymptomsAlert] }, none)
  else
    ({ st with btn := { disabled := true, label := "Analyzing…" } },
      some (submitPayload form symptoms))

/-- Continuation of the submit handler on settlement of the triage call
(app.js lines 239-250): the then-branch renders and unhides the panels and
triggers the background dashboard refresh, the catch-branch alerts with the
failure message, and the finally-branch re-enables the button and restores
its markup on both paths. -/
def submitSettle (res : Settled TriageData) (st : PageState) : PageState :=
  let st :=
    match res with
    | .fulfilled data =>
      { st with
        resultContent := renderTriageResult data
        explainContent := renderExplainability data.contributing_factors
        resultHidden := false
        explainHidden := false
        dashboardRefreshes := st.dashboardRefreshes + 1 }
    | .rejected msg =>
      { st with alerts := st.alerts ++ [if msg ≠ "" then msg else "Triage request failed."] }
  { st with btn := { disabled := false, label := pageBtnLabel } }

/-! ## Spec-side raw renderers, written from the claim wording: the same
markup skeletons with the display texts spliced in directly.  Comparing the
source renderers against these shows exactly which positions are escaped. -/

/-- Modelled from the spec claim: result-panel markup with every display
text passed in as-is (no escaping applied inside). -/
def renderTriageRawView (riskTxt : String) (conf : Int) (deptTxt : String)
    (altTxts : List String) (summaryTxt : String) (riskValClass : String) : String :=
  "<div class=\"result-row\"><span class=\"result-label\">Risk level</span><span class=\"result-value " ++ riskValClass ++ "\">" ++ riskTxt ++ "</span></div>"
    ++ "<div class=\"result-row\"><span class=\"result-label\">Confidence</span><span class=\"result-value\">" ++ toString conf ++ "%</span></div>"
    ++ "<div class=\"result-row\"><span class=\"result-label\">Recommended department</span></div>"
    ++ "<p class=\"result-dept\" style=\"margin:0 0 0.75rem 0\">" ++ deptTxt ++ "</p>"
    ++ (if altTxts.length ≠ 0 then "<p style=\"font-size:0.8125rem;color:var(--color-text-muted);margin:0 0 0.75rem 0\">Alternatives: " ++ String.intercalate ", " altTxts ++ "</p>" else "")
    ++ (if summaryTxt ≠ "" then "<p class=\"result-summary\">" ++ summaryTxt ++ "</p>" else "")

/-- Modelled from the spec claim: one explainability item with all four
markup positions passed in as-is. -/
def explainItemRawView (factorTxt impactCls impactTxt descTxt : String) : String :=
  "<li class=\"explain-item\"><span class=\"explain-factor\">" ++ factorTxt
    ++ "</span><span class=\"explain-impact " ++ impactCls ++ "\">("
    ++ impactTxt ++ ")</span><p class=\"explain-desc\">" ++ descTxt ++ "</p></li>"

/-- Modelled from the spec claim: one recent-feed item with all markup
positions passed in as-is. -/
def recentItemRawView (badgeCls riskTxt deptTxt symTxt confTxt : String) : String :=
  "<div class=\"recent-item\"><div><p class=\"recent-item-dept\">" ++ deptTxt
    ++ "</p><p class=\"recent-item-symptoms\">" ++ symTxt
    ++ "</p></div><div class=\"recent-item-meta\">"
    ++ ("<span class=\"badge " ++ badgeCls ++ "\">" ++ riskTxt ++ "</span>")
    ++ "<span style=\"font-size:0.75rem;color:var(--color-text-muted)\">" ++ confTxt
    ++ "</span></div></div>"

/-- Modelled from the spec claim: one department bar with the name text
passed in as-is. -/
def deptItemRawView (nameTxt : String) (pct count : Int) : String :=
  "<div class=\"dept-item\"><div class=\"dept-item-name\">" ++ nameTxt
    ++ "</div><div class=\"dept-item-bar\"><div class=\"dept-item-fill\" style=\"width:" ++ toString pct
    ++ "%\"></div></div><div class=\"dept-item-count\">" ++ toString count ++ "</div></div>"

/-- Modelled from the spec claim: percentage = round(count / total_triages
times 100) with total_triages treated as 1 when zero or absent. -/
def deptPctSpec (count : Int) (total_triages : Option Int) : Int :=
  let denom : Int :=
    match total_triages with
    | some n => if n = 0 then 1 else n
    | none => 1
  jsRound ((count : ℚ) / (denom : ℚ) * 100)

lemma jsRound_eq_floor (q : ℚ) : jsRound q = ⌊q + 1 / 2⌋ := by
  unfold jsRound
  rw [Rat.floor_def', Rat.floor_def]

lemma escL_cons (c : Char) (cs : List Char) :
    escL (c :: cs) = escCharL c ++ escL cs := rfl

lemma escCharL_amp : escCharL '&' = ['&', 'a', 'm', 'p', ';'] := rfl

lemma escCharL_lt : escCharL '<' = ['&', 'l', 't', ';'] := rfl

lemma escCharL_gt : escCharL '>' = ['&', 'g', 't', ';'] := rfl

lemma escCharL_other (c : Char) (h1 : c ≠ '&') (h2 : c ≠ '<') (h3 : c ≠ '>') :
    escCharL c = [c] := by
  unfold escCharL
  rw [if_neg h1, if_neg h2, if_neg h3]

lemma unescL_amp (r : List Char) :
    unescL ('&' :: 'a' :: 'm' :: 'p' :: ';' :: r) = '&' :: unescL r := rfl

lemma unescL_lt (r : List Char) :
    unescL ('&' :: 'l' :: 't' :: ';' :: r) = '<' :: unescL r := rfl

lemma unescL_gt (r : List Char) :
    unescL ('&' :: 'g' :: 't' :: ';' :: r) = '>' :: unescL r := rfl

lemma unescL_cons_of_ne (c : Char) (rest : List Char) (h : c ≠ '&') :
    unescL (c :: rest) = c :: unescL rest := by
  rw [unescL.eq_def]
  split
  · rename_i r heq
    injection heq with h1 h2
    exact absurd h1 h
  · rename_i r heq
    injection heq with h1 h2
    exact absurd h1 h
  · rename_i r heq
    injection heq with h1 h2
    exact absurd h1 h
  · rename_i heq
    injection heq with h1 h2
    subst h1
    subst h2
    rfl
  · rename_i heq
    simp at heq

lemma unescL_escL (cs : List Char) : unescL (escL cs) = cs := by
  induction cs with
  | nil => rfl
  | cons c cs ih =>
    rw [escL_cons]
    by_cases h1 : c = '&'
    · subst h1
      rw [escCharL_amp]
      simp only [List.cons_append, List.nil_append]
      rw [unescL_amp, ih]
    · by_cases h2 : c = '<'
      · subst h2
        rw [escCharL_lt]
        simp only [List.cons_append, List.nil_append]
        rw [unescL_lt, ih]
      · by_cases h3 : c = '>'
        · subst h3
          rw [escCharL_gt]
          simp only [List.cons_append, List.nil_append]
          rw [unescL_gt, ih]
        · rw [escCharL_other c h1 h2 h3]
          simp only [List.cons_append, List.nil_append]
          rw [unescL_cons_of_ne c _ h1, ih]

lemma lt_not_mem_escCharL (c : Char) : '<' ∉ escCharL c := by
  unfold escCharL
  split_ifs with h1 h2 h3
  · decide
  · decide
  · decide
  · simp only [List.mem_singleton]
    intro h
    exact h2 h.symm

lemma gt_not_mem_escCharL (c : Char) : '>' ∉ escCharL c := by
  unfold escCharL
  split_ifs with h1 h2 h3
  · decide
  · decide
  · decide
  · simp only [List.mem_singleton]
    intro h
    exact h3 h.symm

lemma lt_not_mem_escL (cs : List Char) : '<' ∉ escL cs := by
  induction cs with
  | nil => simp [escL]
  | cons c cs ih =>
    rw [escL_cons]
    simp only [List.mem_append, not_or]
    exact ⟨lt_not_mem_escCharL c, ih⟩

lemma gt_not_mem_escL (cs : List Char) : '>' ∉ escL cs := by
  induction cs with
  | nil => simp [escL]
  | cons c cs ih =>
    rw [escL_cons]
    simp only [List.mem_append, not_or]
    exact ⟨gt_not_mem_escCharL c, ih⟩

lemma escCharL_ne_nil (c : Char) : escCharL c ≠ [] := by
  unfold escCharL
  split_ifs <;> simp

lemma escL_eq_nil_iff (cs : List Char) : escL cs = [] ↔ cs = [] := by
  cases cs with
  | nil => simp [escL]
  | cons c cs =>
    rw [escL_cons]
    simp [List.append_eq_nil, escCharL_ne_nil c]

lemma escStr_eq_empty_iff (s : String) : escStr s = "" ↔ s = "" := by
  cases s with
  | mk data =>
    constructor
    · intro h
      have hd : escL data = [] := congrArg String.data h
      have hdata : data = [] := (escL_eq_nil_iff data).mp hd
      subst hdata
      rfl
    · intro h
      have hdata : data = [] := congrArg String.data h
      subst hdata
      rfl

/-! ## Frame lemmas: each per-field fill step touches only its own field. -/

@[simp] lemma fillAge_gender (p : Patient) (f : FormState) :
    (fillAge p f).gender = f.gender := by
  unfold fillAge
  (repeat' split) <;> rfl

@[simp] lemma fillAge_symptoms (p : Patient) (f : FormState) :
    (fillAge p f).symptoms = f.symptoms := by
  unfold fillAge
  (repeat' split) <;> rfl

@[simp] lemma fillAge_bp (p : Patient) (f : FormState) :
    (fillAge p f).blood_pressure = f.blood_pressure := by
  unfold fillAge
  (repeat' split) <;> rfl

@[simp] lemma fillAge_hr (p : Patient) (f : FormState) :
    (fillAge p f).heart_rate = f.heart_rate := by
  unfold fillAge
  (repeat' split) <;> rfl

@[simp] lemma fillAge_temp (p : Patient) (f : FormState) :
    (fillAge p f).temperature = f.temperature := by
  unfold fillAge
  (repeat' split) <;> rfl

@[simp] lemma fillAge_conds (p : Patient) (f : FormState) :
    (fillAge p f).pre_existing_conditions = f.pre_existing_conditions := by
  unfold fillAge
  (repeat' split) <;> rfl

@[simp] lemma fillGender_age (p : Patient) (f : FormState) :
    (fillGender p f).age = f.age := by
  unfold fillGender
  (repeat' split) <;> rfl

@[simp] lemma fillGender_symptoms (p : Patient) (f : FormState) :
    (fillGender p f).symptoms = f.symptoms := by
  unfold fillGender
  (repeat' split) <;> rfl

@[simp] lemma fillGender_bp (p : Patient) (f : FormState) :
    (fillGender p f).blood_pressure = f.blood_pressure := by
  unfold fillGender
  (repeat' split) <;> rfl

@[simp] lemma fillGender_hr (p : Patient) (f : FormState) :
    (fillGender p f).heart_rate = f.heart_rate := by
  unfold fillGender
  (repeat' split) <;> rfl

@[simp] lemma fillGender_temp (p : Patient) (f : FormState) :
    (fillGender p f).temperature = f.temperature := by
  unfold fillGender
  (repeat' split) <;> rfl

@[simp] lemma fillGender_conds (p : Patient) (f : FormState) :
    (fillGender p f).pre_existing_conditions = f.pre_existing_conditions := by
  unfold fillGender
  (repeat' split) <;> rfl

@[simp] lemma fillSymptoms_age (p : Patient) (f : FormState) :
    (fillSymptoms p f).age = f.age := by
  unfold fillSymptoms
  (repeat' split) <;> rfl

@[simp] lemma fillSymptoms_gender (p : Patient) (f : FormState) :
    (fillSymptoms p f).gender = f.gender := by
  unfold fillSymptoms
  (repeat' split) <;> rfl

@[simp] lemma fillSymptoms_bp (p : Patient) (f : FormState) :
    (fillSymptoms p f).blood_pressure = f.blood_pressure := by
  unfold fillSymptoms
  (repeat' split) <;> rfl

@[simp] lemma fillSymptoms_hr (p : Patient) (f : FormState) :
    (fillSymptoms p f).heart_rate = f.heart_rate := by
  unfold fillSymptoms
  (repeat' split) <;> rfl

@[simp] lemma fillSymptoms_temp (p : Patient) (f : FormState) :
    (fillSymptoms p f).temperature = f.temperature := by
  unfold fillSymptoms
  (repeat' split) <;> rfl

@[simp] lemma fillSymptoms_conds (p : Patient) (f : FormState) :
    (fillSymptoms p f).pre_existing_conditions = f.pre_existing_conditions := by
  unfold fillSymptoms
  (repeat' split) <;> rfl

@[simp] lemma fillBloodPressure_age (p : Patient) (f : FormState) :
    (fillBloodPressure p f).age = f.age := by
  unfold fillBloodPressure
  (repeat' split) <;> rfl

@[simp] lemma fillBloodPressure_gender (p : Patient) (f : FormState) :
    (fillBloodPressure p f).gender = f.gender := by
  unfold fillBloodPressure
  (repeat' split) <;> rfl

@[simp] lemma fillBloodPressure_symptoms (p : Patient) (f : FormState) :
    (fillBloodPressure p f).symptoms = f.symptoms := by
  unfold fillBloodPressure
  (repeat' split) <;> rfl

@[simp] lemma fillBloodPressure_hr (p : Patient) (f : FormState) :
    (fillBloodPressure p f).heart_rate = f.heart_rate := by
  unfold fillBloodPressure
  (repeat' split) <;> rfl

@[simp] lemma fillBloodPressure_temp (p : Patient) (f : FormState) :
    (fillBloodPressure p f).temperature = f.temperature := by
  unfold fillBloodPressure
  (repeat' split) <;> rfl

@[simp] lemma fillBloodPressure_conds (p : Patient) (f : FormState) :
    (fillBloodPressure p f).pre_existing_conditions = f.pre_existing_conditions := by
  unfold fillBloodPressure
  (repeat' split) <;> rfl

@[simp] lemma fillHeartRate_age (p : Patient) (f : FormState) :
    (fillHeartRate p f).age = f.age := by
  unfold fillHeartRate
  (repeat' split) <;> rfl

@[simp] lemma fillHeartRate_gender (p : Patient) (f : FormState) :
    (fillHeartRate p f).gender = f.gender := by
  unfold fillHeartRate
  (repeat' split) <;> rfl

@[simp] lemma fillHeartRate_symptoms (p : Patient) (f : FormState) :
    (fillHeartRate p f).symptoms = f.symptoms := by
  unfold fillHeartRate
  (repeat' split) <;> rfl

@[simp] lemma fillHeartRate_bp (p : Patient) (f : FormState) :
    (fillHeartRate p f).blood_pressure = f.blood_pressure := by
  unfold fillHeartRate
  (repeat' split) <;> rfl

@[simp] lemma fillHeartRate_temp (p : Patient) (f : FormState) :
    (fillHeartRate p f).temperature = f.temperature := by
  unfold fillHeartRate
  (repeat' split) <;> rfl

@[simp] lemma fillHeartRate_conds (p : Patient) (f : FormState) :
    (fillHeartRate p f).pre_existing_conditions = f.pre_existing_conditions := by
  unfold fillHeartRate
  (repeat' split) <;> rfl

@[simp] lemma fillTemperature_age (p : Patient) (f : FormState) :
    (fillTemperature p f).age = f.age := by
  unfold fillTemperature
  (repeat' split) <;> rfl

@[simp] lemma fillTemperature_gender (p : Patient) (f : FormState) :
    (fillTemperature p f).gender = f.gender := by
  unfold fillTemperature
  (repeat' split) <;> rfl

@[simp] lemma fillTemperature_symptoms (p : Patient) (f : FormState) :
    (fillTemperature p f).symptoms = f.symptoms := by
  unfold fillTemperature
  (repeat' split) <;> rfl

@[simp] lemma fillTemperature_bp (p : Patient) (f : FormState) :
    (fillTemperature p f).blood_pressure = f.blood_pressure := by
  unfold fillTemperature
  (repeat' split) <;> rfl

@[simp] lemma fillTemperature_hr (p : Patient) (f : FormState) :
    (fillTemperature p f).heart_rate = f.heart_rate := by
  unfold fillTemperature
  (repeat' split) <;> rfl

@[simp] lemma fillTemperature_conds (p : Patient) (f : FormState) :
    (fillTemperature p f).pre_existing_conditions = f.pre_existing_conditions := by
  unfold fillTemperature
  (repeat' split) <;> rfl

@[simp] lemma fillConditions_age (p : Patient) (f : FormState) :
    (fillConditions p f).age = f.age := by
  unfold fillConditions
  (repeat' split) <;> rfl

@[simp] lemma fillConditions_gender (p : Patient) (f : FormState) :
    (fillConditions p f).gender = f.gender := by
  unfold fillConditions
  (repeat' split) <;> rfl

@[simp] lemma fillConditions_symptoms (p : Patient) (f : FormState) :
    (fillConditions p f).symptoms = f.symptoms := by
  unfold fillConditions
  (repeat' split) <;> rfl

@[simp] lemma fillConditions_bp (p : Patient) (f : FormState) :
    (fillConditions p f).blood_pressure = f.blood_pressure := by
  unfold fillConditions
  (repeat' split) <;> rfl

@[simp] lemma fillConditions_hr (p : Patient) (f : FormState) :
    (fillConditions p f).heart_rate = f.heart_rate := by
  unfold fillConditions
  (repeat' split) <;> rfl

@[simp] lemma fillConditions_temp (p : Patient) (f : FormState) :
    (fillConditions p f).temperature = f.temperature := by
  unfold fillConditions
  (repeat' split) <;> rfl

lemma deptPct_eq_spec (count : Int) (t : Option Int) :
    deptPct count t = deptPctSpec count t := by
  unfold deptPct deptPctSpec jsOrInt
  cases t with
  | none => simp
  | some n =>
    by_cases h : n = 0 <;> simp [h]

set_option maxRecDepth 8000 in
/-- C1 counterexample: the ExplainFactor impact label is spliced into the
markup unescaped.  With impact set to a tag, the rendered markup contains
the raw tag between the parentheses of the impact label, while escaping the
same value would have produced no such substring. -/
theorem c1_impact_unescaped_counterexample :
    "(<script>)".data <:+: (renderExplainability
      (some [{ factor := some "a", impact := some "<script>", description := some "b" }])).data
    ∧ ¬ ("<script>".data <:+: (escapeHtml (some "<script>")).data) := by
  constructor
  · decide
  · decide

/-- C1 amended: every text value flowing into the markup of
renderTriageResult, renderExplainability and the dashboard fragments built
in loadDashboardSummary is HTML-escaped, and null or absent values render as
the empty string, with one exception: the ExplainFactor impact label is
concatenated raw, both as the class token and as the visible parenthesised
label.  Escaped text contains no raw lower-than or greater-than character,
and decoding its entities recovers the source text exactly, so no ampersand
of the source survives unescaped. -/
theorem c1_markup_escaping :
    (∀ s : String, '<' ∉ (escStr s).data ∧ '>' ∉ (escStr s).data
      ∧ unescL (escStr s).data = s.data)
    ∧ escapeHtml none = ""
    ∧ (∀ data : TriageData,
        renderTriageResult data = renderTriageRawView
          (escStr (jsOrStr data.risk_level "Low"))
          (resultConf data.confidence_score)
          (escStr (jsOrStr data.recommended_department "General Medicine"))
          ((data.alternative_departments.getD []).map escStr)
          (escStr (jsOrStr data.summary ""))
          (riskValueClass (some (jsOrStr data.risk_level "Low"))))
    ∧ (∀ f : ExplainFactor,
        explainItemHtml f = explainItemRawView (escapeHtml f.factor)
          (impactClass f.impact) (jsUndefStr f.impact) (escapeHtml f.description))
    ∧ (∀ r : RecentEntry,
        recentItemHtml r = recentItemRawView (riskBadgeClass r.risk_level)
          (escapeHtml r.risk_level) (escapeHtml r.recommended_department)
          (escStr (symExcerpt r)) (recentConfText r.confidence_score))
    ∧ (∀ (dept : String) (count pct : Int),
        deptItemHtml dept count pct = deptItemRawView (escStr dept) pct count) := by
  refine ⟨?_, rfl, ?_, fun f => rfl, fun r => rfl, fun dept count pct => rfl⟩
  · intro s
    exact ⟨lt_not_mem_escL s.data, gt_not_mem_escL s.data, unescL_escL s.data⟩
  · intro data
    unfold renderTriageResult renderTriageRawView
    simp only [List.length_map]
    rw [if_congr (not_congr (escStr_eq_empty_iff (jsOrStr data.summary ""))) rfl rfl]

/-- C2 counterexample: the dashboard-summary fetch never inspects the
transport status.  A non-success response whose body parses fine resolves
successfully with that body instead of throwing the server-supplied
message. -/
theorem c2_dashboard_counterexample :
    API.dashboardSummary { ok := false, json := .ok { error := some "boom" } }
      = .ok { error := some "boom" } := rfl

/-- C2 amended: for the three POST operations a non-success response throws
the server-supplied error message when it is present and non-empty, and the
fixed per-operation generic message when the parsed payload has no usable
message; when parsing the error payload itself fails, the parse rejection
propagates as the failure (the generic message is not substituted).  The two
dashboard fetches never inspect the transport status and simply pass the
body-parse result through. -/
theorem c2_transport_errors (r : FetchResp) (h : r.ok = false) :
    (∀ j : RespBody, r.json = .ok j →
      API.triage r = .error (jsOrStr j.error "Triage failed")
      ∧ API.uploadDocument r = .error (jsOrStr j.error "Upload failed")
      ∧ API.analyzeDocumentImage r = .error (jsOrStr j.error "Analysis failed"))
    ∧ (∀ m : String, r.json = .error m →
      API.triage r = .error m
      ∧ API.uploadDocument r = .error m
      ∧ API.analyzeDocumentImage r = .error m)
    ∧ API.dashboardSummary r = r.json
    ∧ API.dashboardHistory r = r.json := by
  refine ⟨?_, ?_, rfl, rfl⟩
  · intro j hj
    refine ⟨?_, ?_, ?_⟩ <;>
      simp [API.triage, API.uploadDocument, API.analyzeDocumentImage, apiPostResult, h, hj]
  · intro m hm
    refine ⟨?_, ?_, ?_⟩ <;>
      simp [API.triage, API.uploadDocument, API.analyzeDocumentImage, apiPostResult, h, hm]

/-- Witness for c2_transport_errors at a concrete failed response carrying a
server message. -/
theorem c2_transport_errors_witness :
    API.triage { ok := false, json := .ok { error := some "model unavailable" } }
      = .error "model unavailable" := by
  have h := c2_transport_errors
    { ok := false, json := .ok { error := some "model unavailable" } } rfl
  exact (h.1 { error := some "model unavailable" } rfl).1

/-- C3: once validation passes, the submit button is disabled with the
in-progress label and the triage call is issued; on every settlement of that
call, success and failure alike, the finally continuation re-enables the
button and restores the original markup, unconditionally in the settlement
outcome and in the page state. -/
theorem c3_submit_button_restored (form : FormState) (st : PageState)
    (h : jsTrim form.symptoms ≠ "") :
    (submitStart form st).1.btn = { disabled := true, label := "Analyzing…" }
    ∧ ((submitStart form st).2).isSome = true
    ∧ (∀ (res : Settled TriageData) (st' : PageState),
        (submitSettle res st').btn = { disabled := false, label := pageBtnLabel }) := by
  refine ⟨?_, ?_, ?_⟩
  · simp [submitStart, h]
  · simp [submitStart, h]
  · intro res st'
    cases res <;> rfl

/-- Witness for c3_submit_button_restored at a concrete form, on the
failure settlement path. -/
theorem c3_submit_button_restored_witness :
    jsTrim ({ symptoms := "chest pain" } : FormState).symptoms ≠ ""
    ∧ (submitSettle (.rejected "boom")
        (submitStart { symptoms := "chest pain" } {}).1).btn
      = { disabled := false, label := pageBtnLabel } := by
  refine ⟨by decide, ?_⟩
  exact (c3_submit_button_restored { symptoms := "chest pain" } {} (by decide)).2.2
    (.rejected "boom") (submitStart { symptoms := "chest pain" } {}).1

/-- C5: form population by fillFormFromPatient is partial and additive:
every form field whose patient field is absent keeps its prior content, the
blood-pressure field becomes the joined systolic/diastolic string when both
components are present, the systolic value alone when only the systolic one
is present, and stays unchanged otherwise. -/
theorem c5_fill_partial_additive (p : Patient) (f : FormState) :
    (p.age = none → (fillFormFromPatient (some p) f).age = f.age)
    ∧ (p.gender = none → (fillFormFromPatient (some p) f).gender = f.gender)
    ∧ (p.symptoms = none → (fillFormFromPatient (some p) f).symptoms = f.symptoms)
    ∧ (p.heart_rate = none → (fillFormFromPatient (some p) f).heart_rate = f.heart_rate)
    ∧ (p.temperature = none → (fillFormFromPatient (some p) f).temperature = f.temperature)
    ∧ (p.pre_existing_conditions = none →
        (fillFormFromPatient (some p) f).pre_existing_conditions = f.pre_existing_conditions)
    ∧ (∀ s d : Int, p.blood_pressure_systolic = some s → p.blood_pressure_diastolic = some d →
        (fillFormFromPatient (some p) f).blood_pressure = toString s ++ "/" ++ toString d)
    ∧ (∀ s : Int, p.blood_pressure_systolic = some s → p.blood_pressure_diastolic = none →
        (fillFormFromPatient (some p) f).blood_pressure = toString s)
    ∧ (p.blood_pressure_systolic = none →
        (fillFormFromPatient (some p) f).blood_pressure = f.blood_pressure) := by
  refine ⟨?_, ?_, ?_, ?_, ?_, ?_, ?_, ?_, ?_⟩
  · intro h
    simp [fillFormFromPatient, fillAge, h]
  · intro h
    simp [fillFormFromPatient, fillGender, h]
  · intro h
    simp [fillFormFromPatient, fillSymptoms, h]
  · intro h
    simp [fillFormFromPatient, fillHeartRate, h]
  · intro h
    simp [fillFormFromPatient, fillTemperature, h]
  · intro h
    simp [fillFormFromPatient, fillConditions, h]
  · intro s d hs hd
    simp [fillFormFromPatient, fillBloodPressure, hs, hd]
  · intro s hs hd
    simp [fillFormFromPatient, fillBloodPressure, hs, hd]
  · intro h
    simp [fillFormFromPatient, fillBloodPressure, h]

/-- Witness for c5_fill_partial_additive at the upload payload of spec
Scenario 4: blood pressure becomes the joined string and the symptoms field
the user typed stays as it was. -/
theorem c5_fill_partial_additive_witness :
    (fillFormFromPatient
        (some { age := some 52, blood_pressure_systolic := some 130,
                blood_pressure_diastolic := some 85 })
        { symptoms := "dizzy" }).blood_pressure = "130/85"
    ∧ (fillFormFromPatient
        (some { age := some 52, blood_pressure_systolic := some 130,
                blood_pressure_diastolic := some 85 })
        { symptoms := "dizzy" }).symptoms = "dizzy" := by
  constructor
  · exact (c5_fill_partial_additive _ _).2.2.2.2.2.2.1 130 85 rfl rfl
  · exact (c5_fill_partial_additive _ _).2.2.1 rfl

/-- C10: fillFormFromPatient treats a present-but-empty gender, symptoms or
pre-existing-conditions value like an absent one (truthiness checks), while
age, heart rate, temperature and the blood-pressure components use a null
check only, so a present zero overwrites the form. -/
theorem c10_truthiness_vs_null (p : Patient) (f : FormState) :
    (p.gender = some "" → (fillFormFromPatient (some p) f).gender = f.gender)
    ∧ (p.symptoms = some "" → (fillFormFromPatient (some p) f).symptoms = f.symptoms)
    ∧ (p.pre_existing_conditions = some [] →
        (fillFormFromPatient (some p) f).pre_existing_conditions = f.pre_existing_conditions)
    ∧ (p.age = some 0 → (fillFormFromPatient (some p) f).age = "0")
    ∧ (p.heart_rate = some 0 → (fillFormFromPatient (some p) f).heart_rate = "0")
    ∧ (p.temperature = some 0 → (fillFormFromPatient (some p) f).temperature = "0")
    ∧ (p.blood_pressure_systolic = some 0 → p.blood_pressure_diastolic = some 0 →
        (fillFormFromPatient (some p) f).blood_pressure = "0/0")
    ∧ (p.blood_pressure_systolic = some 0 → p.blood_pressure_diastolic = none →
        (fillFormFromPatient (some p) f).blood_pressure = "0") := by
  refine ⟨?_, ?_, ?_, ?_, ?_, ?_, ?_, ?_⟩
  · intro h
    simp [fillFormFromPatient, fillGender, h]
  · intro h
    simp [fillFormFromPatient, fillSymptoms, h]
  · intro h
    simp [fillFormFromPatient, fillConditions, h]
  · intro h
    simp [fillFormFromPatient, fillAge, h]
    try rfl
  · intro h
    simp [fillFormFromPatient, fillHeartRate, h]
    try rfl
  · intro h
    simp [fillFormFromPatient, fillTemperature, h]
    try rfl
  · intro hs hd
    simp [fillFormFromPatient, fillBloodPressure, hs, hd]
    try rfl
  · intro hs hd
    simp [fillFormFromPatient, fillBloodPressure, hs, hd]
    try rfl

/-- Witness for c10_truthiness_vs_null at a patient carrying empty strings,
an empty list and zeroes. -/
theorem c10_truthiness_vs_null_witness :
    (fillFormFromPatient
        (some { gender := some "", symptoms := some "",
                pre_existing_conditions := some [], age := some 0, heart_rate := some 0,
                temperature := some 0, blood_pressure_systolic := some 0,
                blood_pressure_diastolic := some 0 })
        { gender := "F", symptoms := "ache", pre_existing_conditions := "none" }).gender = "F"
    ∧ (fillFormFromPatient
        (some { gender := some "", symptoms := some "",
                pre_existing_conditions := some [], age := some 0, heart_rate := some 0,
                temperature := some 0, blood_pressure_systolic := some 0,
                blood_pressure_diastolic := some 0 })
        { gender := "F", symptoms := "ache", pre_existing_conditions := "none" }).age = "0"
    ∧ (fillFormFromPatient
        (some { gender := some "", symptoms := some "",
                pre_existing_conditions := some [], age := some 0, heart_rate := some 0,
                temperature := some 0, blood_pressure_systolic := some 0,
                blood_pressure_diastolic := some 0 })
        { gender := "F", symptoms := "ache", pre_existing_conditions := "none" }).blood_pressure = "0/0" := by
  refine ⟨?_, ?_, ?_⟩
  · exact (c10_truthiness_vs_null _ _).1 rfl
  · exact (c10_truthiness_vs_null _ _).2.2.2.1 rfl
  · exact (c10_truthiness_vs_null _ _).2.2.2.2.2.2.1 rfl rfl

/-- C4 counterexample: a present confidence score of 0 lies in the unit
interval, yet the recent feed renders it as the empty string rather than the
rounded percentage text 0%. -/
theorem c4_zero_confidence_counterexample :
    recentConfText (some 0) = ""
    ∧ toString (jsRound ((0 : ℚ) * 100)) ++ "%" = "0%"
    ∧ recentConfText (some 0) ≠ toString (jsRound ((0 : ℚ) * 100)) ++ "%" := by
  have hz : jsRound ((0 : ℚ) * 100) = 0 := by
    rw [jsRound_eq_floor]
    norm_num
  have h0 : recentConfText (some 0) = "" := by
    simp [recentConfText]
  refine ⟨h0, ?_, ?_⟩
  · rw [hz]
    rfl
  · rw [hz, h0]
    decide

/-- C4 amended: for every non-zero confidence score the rendered percentage
is round(score times 100) in both the result panel and the recent feed; an
absent score renders as 0 (hence 0%) in the result panel and as the empty
string in the feed; a present score of exactly 0 renders as 0% in the result
panel but, being falsy, as the empty string in the feed as well. -/
theorem c4_confidence_rounding (c : ℚ) (h : c ≠ 0) :
    resultConf (some c) = jsRound (c * 100)
    ∧ recentConfText (some c) = toString (jsRound (c * 100)) ++ "%"
    ∧ resultConf none = 0
    ∧ recentConfText none = ""
    ∧ resultConf (some 0) = jsRound ((0 : ℚ) * 100)
    ∧ recentConfText (some 0) = "" := by
  refine ⟨rfl, ?_, rfl, rfl, rfl, ?_⟩
  · simp [recentConfText, h]
  · simp [recentConfText]

/-- Witness for c4_confidence_rounding at the Scenario 1 score of 0.87. -/
theorem c4_confidence_rounding_witness :
    (87 / 100 : ℚ) ≠ 0 ∧ recentConfText (some (87 / 100)) = "87%" := by
  refine ⟨by norm_num, ?_⟩
  have h := (c4_confidence_rounding (87 / 100) (by norm_num)).2.1
  have h87 : jsRound ((87 / 100 : ℚ) * 100) = 87 := by
    rw [jsRound_eq_floor]
    norm_num
  rw [h, h87]
  rfl

/-- C6: when the dashboard-summary fetch rejects, the recent feed, if its
container is present, is replaced with the fixed could-not-load message, and
the three risk counters and the department bar list are left unchanged. -/
theorem c6_summary_failure_frame (m : String) (dom : Dom) :
    (loadDashboardSummary (.rejected m) dom).statLow = dom.statLow
    ∧ (loadDashboardSummary (.rejected m) dom).statMedium = dom.statMedium
    ∧ (loadDashboardSummary (.rejected m) dom).statHigh = dom.statHigh
    ∧ (loadDashboardSummary (.rejected m) dom).deptBars = dom.deptBars
    ∧ (loadDashboardSummary (.rejected m) dom).recentList
        = dom.recentList.map (fun _ => couldNotLoadHtml) := by
  exact ⟨rfl, rfl, rfl, rfl, rfl⟩

/-- C7: a submission whose symptoms are empty after trimming issues no
network call, appends only the blocking validation alert and leaves every
other part of the page state (the button included) untouched; a submission
with non-empty trimmed symptoms issues the triage call with the collected
payload. -/
theorem c7_empty_symptoms_validation (form : FormState) (st : PageState) :
    (jsTrim form.symptoms = "" →
      submitStart form st = ({ st with alerts := st.alerts ++ [enterSymptomsAlert] }, none))
    ∧ (jsTrim form.symptoms ≠ "" →
      (submitStart form st).2 = some (submitPayload form (jsTrim form.symptoms))) := by
  constructor
  · intro h
    simp [submitStart, h]
  · intro h
    simp [submitStart, h]

/-- Witness for c7_empty_symptoms_validation: a whitespace-only symptoms
field aborts with the alert and no call, a filled one issues the call. -/
theorem c7_empty_symptoms_validation_witness :
    submitStart { symptoms := "   " } {} = ({ alerts := [enterSymptomsAlert] }, none)
    ∧ (submitStart { symptoms := "chest pain" } {}).2
        = some (submitPayload { symptoms := "chest pain" } (jsTrim "chest pain")) := by
  constructor
  · have h := (c7_empty_symptoms_validation { symptoms := "   " } {}).1 (by decide)
    exact h
  · exact (c7_empty_symptoms_validation { symptoms := "chest pain" } {}).2 (by decide)

/-- C8: the department panel renders, for each department key in order, a
bar whose percentage is round(count divided by total_triages times 100) with
the denominator treated as 1 when zero or absent, next to the raw count; an
empty department mapping renders the fixed no-data placeholder instead. -/
theorem c8_department_bars (data : DashboardSummary) (dom : Dom) :
    (loadDashboardSummary (.fulfilled data) dom).deptBars
        = dom.deptBars.map (fun _ => deptBarsHtml data)
    ∧ (data.by_department.getD [] = [] → deptBarsHtml data = noDataYetHtml)
    ∧ (∀ l : List (String × Int), data.by_department.getD [] = l → l ≠ [] →
        deptBarsHtml data = String.join
          (l.map (fun dc => deptItemHtml dc.1 dc.2 (deptPctSpec dc.2 data.total_triages))))
    ∧ (∀ (count : Int) (t : Option Int), deptPct count t = deptPctSpec count t) := by
  refine ⟨?_, ?_, ?_, deptPct_eq_spec⟩
  · cases hr : data.recent with
    | none => simp [loadDashboardSummary, hr]
    | some rs =>
      by_cases hlen : rs.length = 0
      · simp [loadDashboardSummary, hr, hlen]
      · simp [loadDashboardSummary, hr, hlen]
  · intro h
    simp [deptBarsHtml, h]
  · intro l hl hne
    have hlen : l.length ≠ 0 := by
      simpa [List.length_eq_zero] using hne
    simp [deptBarsHtml, hl, hlen, deptPct_eq_spec]

/-- Witness for c8_department_bars at the Scenario 5 summary: two
departments with counts 3 and 1 out of 4 triages render bars of 75 and 25
percent. -/
theorem c8_department_bars_witness :
    deptPct 3 (some 4) = 75 ∧ deptPct 1 (some 4) = 25
    ∧ deptBarsHtml { by_department := some [("ER", 3), ("Cardiology", 1)], total_triages := some 4 }
      = String.join [deptItemHtml "ER" 3 75, deptItemHtml "Cardiology" 1 25] := by
  have h := c8_department_bars
    { by_department := some [("ER", 3), ("Cardiology", 1)], total_triages := some 4 } {}
  have hs3 : deptPctSpec 3 (some 4) = 75 := by
    unfold deptPctSpec
    simp only [if_neg (by norm_num : ¬ ((4 : Int) = 0))]
    rw [jsRound_eq_floor]
    norm_num
  have hs1 : deptPctSpec 1 (some 4) = 25 := by
    unfold deptPctSpec
    simp only [if_neg (by norm_num : ¬ ((4 : Int) = 0))]
    rw [jsRound_eq_floor]
    norm_num
  refine ⟨(h.2.2.2 3 (some 4)).trans hs3, (h.2.2.2 1 (some 4)).trans hs1, ?_⟩
  have hb := h.2.2.1 [("ER", 3), ("Cardiology", 1)] rfl (by simp)
  rw [hb]
  simp only [List.map_cons, List.map_nil]
  rw [hs3, hs1]

/-- C9 counterexample: a present but empty symptoms string has length at
most 60, yet the recent-feed excerpt shows the em-dash placeholder instead
of the string unmodified. -/
theorem c9_excerpt_counterexample :
    symExcerpt { patient_input := some { symptoms := some "" } } = "—"
    ∧ ("" : String).length ≤ 60
    ∧ ("—" : String) ≠ "" := by
  refine ⟨rfl, by decide, by decide⟩

/-- C9 amended: a non-empty symptoms string of length at most 60 renders
unmodified with no marker; a string longer than 60 renders as exactly its
first 60 characters followed by the ellipsis marker; an absent symptoms
value, an absent patient_input, and a present but empty string (falsy in the
source condition) all render as the em-dash placeholder. -/
theorem c9_symptom_excerpt (s : String) :
    (s ≠ "" → s.length ≤ 60 →
      symExcerpt { patient_input := some { symptoms := some s } } = s)
    ∧ (s.length > 60 →
      symExcerpt { patient_input := some { symptoms := some s } } = s.take 60 ++ "…")
    ∧ symExcerpt { patient_input := some { symptoms := none } } = "—"
    ∧ symExcerpt { patient_input := none } = "—"
    ∧ symExcerpt { patient_input := some { symptoms := some "" } } = "—" := by
  refine ⟨?_, ?_, rfl, rfl, rfl⟩
  · intro h1 h2
    have hlen : ¬ s.length > 60 := by omega
    have ht : s.take 60 = s := by
      rw [String.take_eq, List.take_of_length_le h2]
    simp [symExcerpt, h1, hlen, ht]
  · intro h
    have h1 : s ≠ "" := by
      intro he
      subst he
      simp at h
    simp [symExcerpt, h1, h]

set_option maxRecDepth 40000 in
/-- Witness for c9_symptom_excerpt: a 3-character string renders unmodified
and a 61-character string is cut to its first 60 characters plus the
marker. -/
theorem c9_symptom_excerpt_witness :
    symExcerpt { patient_input := some { symptoms := some "abc" } } = "abc"
    ∧ ("aaaaaaaaaaaaaaaaaaaaaaaaaaaaaaaaaaaaaaaaaaaaaaaaaaaaaaaaaaaaa" : String).length > 60
    ∧ symExcerpt { patient_input := some { symptoms := some "aaaaaaaaaaaaaaaaaaaaaaaaaaaaaaaaaaaaaaaaaaaaaaaaaaaaaaaaaaaaa" } }
        = "aaaaaaaaaaaaaaaaaaaaaaaaaaaaaaaaaaaaaaaaaaaaaaaaaaaaaaaaaaaa…" := by
  refine ⟨(c9_symptom_excerpt "abc").1 (by decide) (by decide), by decide, ?_⟩
  have h := (c9_symptom_excerpt "aaaaaaaaaaaaaaaaaaaaaaaaaaaaaaaaaaaaaaaaaaaaaaaaaaaaaaaaaaaaa").2.1 (by decide)
  rw [h]
  decide
